import Mathlib

/-!
Verification development for the AWS-Operations conversational controller.

Shallow embedding of the three source files:
  * `src/agentcore-runtime/src/agents/enhanced_aws_agent.py`  (suffix `A` below)
  * `src/agentcore-runtime/src/agents/enhanced_agent.py`      (suffix `E` below)
  * `src/mcp-tool-lambda/lambda/enhanced-mcp-handler.py`      (namespace `Handler`)

Python dictionaries holding per-user conversation state are embedded as
structures of `Option` fields: a key that is absent or bound to a falsy value
(`None`, `{}`, `''`) is `none` exactly where the code observes state only
through `.get` / truthiness tests, which is the case on every reachable path.
The MCP gateway (`mcp_client.call_tool`) is an external collaborator and is a
parameter of every turn function: `Except String GwResult`, where `.error e`
models the call raising an exception whose `str` is `e`.  Each turn function
also returns the list of gateway invocations it performed, in order, so that
"invokes the gateway exactly once" is a statement about that list.
-/

/-! ### String primitives (Python `in`, `lower`, `upper`, `replace`) -/

/-- `leadsWithL pat s`: `pat` occurs at the start of `s`. -/
def leadsWithL : List Char → List Char → Bool
  | [], _ => true
  | _ :: _, [] => false
  | a :: as, b :: bs => a == b && leadsWithL as bs

/-- `containsL pat s`: Python `pat in s` on character lists
(the empty pattern occurs in every string, as in Python). -/
def containsL (pat : List Char) : List Char → Bool
  | [] => pat.isEmpty
  | c :: rest => leadsWithL pat (c :: rest) || containsL pat rest

/-- Python `s.replace(pat, rep)` (all occurrences, left to right), with a
character-count fuel so that the recursion is structural: every step
consumes at least one character, so `s.length` fuel always suffices. -/
def replaceAllLAux (pat rep : List Char) : Nat → List Char → List Char
  | 0, s => s
  | _ + 1, [] => []
  | fuel + 1, c :: rest =>
    match pat with
    | [] => c :: rest
    | p :: ps =>
      if leadsWithL (p :: ps) (c :: rest) then
        rep ++ replaceAllLAux (p :: ps) rep fuel (List.drop ps.length rest)
      else
        c :: replaceAllLAux (p :: ps) rep fuel rest

/-- Python `s.replace(pat, rep)` (all occurrences, left to right). -/
def replaceAllL (pat rep s : List Char) : List Char := replaceAllLAux pat rep s.length s

/-- Python `message.lower()` (ASCII case folding suffices for this code:
every pattern and token the code compares against is ASCII). -/
def lowerS (s : String) : String := ⟨s.data.map Char.toLower⟩

/-- Python `message.upper()`. -/
def upperS (s : String) : String := ⟨s.data.map Char.toUpper⟩

/-- Python `pat in s` on strings. -/
def strIn (pat s : String) : Bool := containsL pat.data s.data

/-- Python `s.replace(pat, rep)` on strings. -/
def strReplace (s pat rep : String) : String := ⟨replaceAllL pat.data rep.data s.data⟩

/-- Python `s.startswith(pat)`. -/
def strStartsWith (pat s : String) : Bool := leadsWithL pat.data s.data

/-- Python `s.endswith(pat)`. -/
def strEndsWith (pat s : String) : Bool := leadsWithL pat.data.reverse s.data.reverse

/-- Python `s.replace(' ', '_')` as used on purpose answers. -/
def underscoreSpaces (s : String) : String :=
  ⟨s.data.map (fun c => if c == ' ' then '_' else c)⟩

/-- Python `"\n".join(parts)`. -/
def joinNL : List String → String
  | [] => ""
  | [x] => x
  | x :: y :: xs => x ++ "\n" ++ joinNL (y :: xs)

/-! ### Gateway interface (Execution Gateway / MCP tool call) -/

/-- The fields of a gateway result dictionary that the two agents read
(`success`, `message`, `error`, `instance_id`, `instance_type`,
`function_name`); a `none` field models an absent key. -/
structure GwResult where
  success : Option Bool
  message : Option String
  error : Option String
  instance_id : Option String
  instance_type : Option String
  function_name : Option String
  deriving DecidableEq, Repr

/-- The configuration dictionary built by `_handle_creation_config`
(`enhanced_aws_agent.py` lines 169-181). -/
structure CreationConfig where
  mode : String
  purpose : Option String
  function_name : Option String
  instance_type : Option String
  deriving DecidableEq, Repr

/-- The parameter dictionary of a `comprehensive_aws_query` call;
`include_costs` is present only in the `enhanced_agent.py` variant. -/
structure QueryParams where
  query : String
  format : String
  include_costs : Option Bool
  deriving DecidableEq, Repr

/-- Parameters passed to a gateway invocation. `raw` carries the untyped
params dictionary stored in a pending confirmation record. -/
inductive CallArg where
  | creation (c : CreationConfig)
  | query (q : QueryParams)
  | raw (p : List (String × String))
  deriving DecidableEq, Repr

/-- One gateway invocation: tool name and parameters. -/
abbrev Call := String × CallArg

/-- The gateway: `.ok` is a returned result dictionary, `.error e` models
`call_tool` raising an exception with `str(e) = e`. -/
abbrev Gw := String → CallArg → Except String GwResult

/-- Python truthiness of `result.get('success')`. -/
def truthyB (o : Option Bool) : Bool := o.getD false

/-- Python truthiness of `.get(key)` for a string-valued key. -/
def truthyS : Option String → Bool
  | none => false
  | some t => !(t == "")

/-- Output of one turn: updated session, reply text, gateway calls made. -/
structure TurnOut (σ : Type) where
  session : σ
  reply : String
  calls : List Call
  deriving DecidableEq, Repr

/-! ### Session state -/

/-- `pending_creation` record: `{'resource_type': ..., 'original_message': ...}`. -/
structure PendingCreation where
  resource_type : String
  original_message : String
  deriving DecidableEq, Repr

/-- The intended shape of a `pending_confirmations` record as read by
`_handle_confirmation` (`enhanced_agent.py` lines 301-302):
`pending.get('action')` and `pending.get('params', {})`. -/
structure PendingConf where
  action : String
  params : List (String × String)
  deriving DecidableEq, Repr

/-- Per-user state of `enhanced_aws_agent.py`: keys `pending_creation`,
`creation_mode`, `creation_resource`.  The initial dictionary (all keys
`None`, lines 34-39) and the post-creation reset `{}` (line 187) are
observationally identical through `.get`, and are both `SessionA.empty`. -/
structure SessionA where
  pending_creation : Option PendingCreation
  creation_mode : Option String
  creation_resource : Option String
  deriving DecidableEq, Repr

def SessionA.empty : SessionA := ⟨none, none, none⟩

/-- Per-user state of `enhanced_agent.py`.  `pending_confirmations` is
initialised to the falsy `{}` (= `none`); `context` and `last_action` are
written once at initialisation and never read, so they are omitted. -/
structure SessionE where
  pending_confirmations : Option PendingConf
  pending_creation : Option PendingCreation
  creation_mode : Option String
  creation_resource : Option String
  deriving DecidableEq, Repr

def SessionE.empty : SessionE := ⟨none, none, none, none⟩

/-! ### Intent classifier of `enhanced_aws_agent.py` (`_parse_intent`, lines 63-106) -/

inductive IntentA where
  | create (resource_type : String) (original_message : String)
  | nextStep (action_type : String) (original_message : String)
  | query (original_message : String)
  deriving DecidableEq, Repr

/-- The `original_message` field every `IntentA` variant carries. -/
def IntentA.original : IntentA → String
  | .create _ m => m
  | .nextStep _ m => m
  | .query m => m

/-- `create_patterns` (lines 68-73), in dictionary insertion order. -/
def create_patternsA : List (String × List String) :=
  [("ec2", ["create ec2", "launch instance", "new instance"]),
   ("lambda", ["create lambda", "new function", "create function"]),
   ("rds", ["create database", "create rds"]),
   ("s3", ["create bucket", "new bucket"])]

/-- `next_step_patterns` (lines 76-85), in dictionary insertion order. -/
def next_step_patternsA : List (String × List String) :=
  [("install", ["install", "set up", "configure"]),
   ("connect", ["connect", "ssh", "access", "login"]),
   ("test", ["test", "try", "run", "execute"]),
   ("monitor", ["monitor", "alert", "watch", "track"]),
   ("secure", ["secure", "ssl", "certificate", "https"]),
   ("scale", ["scale", "load balancer", "auto scaling"]),
   ("database", ["database", "db", "mysql", "postgres"]),
   ("trigger", ["trigger", "api gateway", "s3 trigger", "schedule"])]

/-- First table entry any of whose patterns occurs in `ml`
(the `for ... if any(...)` loops of `_parse_intent`). -/
def matchTable (tbl : List (String × List String)) (ml : String) : Option String :=
  match tbl with
  | [] => none
  | (tag, pats) :: rest =>
    if pats.any (fun p => strIn p ml) then some tag else matchTable rest ml

/-- `_parse_intent` of `enhanced_aws_agent.py`: creation patterns first,
then next-step patterns, then the `query_resources` fallback.
(`message_lower` is inlined: `lowerS` is pure.) -/
def parse_intentA (message : String) : IntentA :=
  match matchTable create_patternsA (lowerS message) with
  | some rt => .create rt message
  | none =>
    match matchTable next_step_patternsA (lowerS message) with
    | some a => .nextStep a message
    | none => .query message

/-! ### Controller of `enhanced_aws_agent.py` -/

/-- The Easy-mode purpose questions (lines 151-156) with the `.get` default. -/
def purposeQuestionA (rt : String) : String :=
  (List.lookup rt
    [("ec2", "What\x27s the purpose? (web_server, database, development, general)"),
     ("lambda", "What should it do? (api_endpoint, data_processing, general)"),
     ("rds", "Application type? (ecommerce, analytics, development, general)"),
     ("s3", "What to store? (static_website, data_backup, logs, general)")]).getD
    "What\x27s the purpose?"

/-- The Easy/Customize choice prompt (lines 112-128; the identical literal
also appears in `enhanced_agent.py` lines 135-151).  The f-string starts and
ends with a newline from the triple-quoted literal. -/
def modeQuestion (rt : String) : String :=
  "\n🚀 **Creating " ++ upperS rt ++ " Resource**\n\nChoose your setup approach:\n\n" ++
  "🟢 **EASY MODE** (30-60 seconds)\n- Smart defaults based on common use cases\n" ++
  "- Minimal questions, maximum automation\n- Production-ready with best practices\n\n" ++
  "🔧 **CUSTOMIZE MODE** (2-5 minutes)  \n- Full control over all configurations\n" ++
  "- Detailed questions for each setting\n- Tailored to your exact requirements\n\n" ++
  "Which would you prefer? (Type \x27easy\x27 or \x27customize\x27)\n"

/-- `_handle_resource_creation` (lines 108-136): store `pending_creation`,
return the mode question.  No gateway call. -/
def handle_resource_creationA (s : SessionA) (rt orig : String) : TurnOut SessionA :=
  ⟨{ s with pending_creation := some ⟨rt, orig⟩ }, modeQuestion rt, []⟩

/-- `_handle_mode_selection` (lines 138-162).  Note: it sets
`creation_mode` and `creation_resource` but does **not** clear
`pending_creation`. -/
def handle_mode_selectionA (s : SessionA) (mode : String) : TurnOut SessionA :=
  match s.pending_creation with
  | none => ⟨s, "❌ No pending resource creation found.", []⟩
  | some p =>
    let rt := p.resource_type
    let s' := { s with creation_mode := some mode, creation_resource := some rt }
    if mode == "easy" then
      ⟨s', "🟢 **Easy Mode Selected**\n\n" ++ purposeQuestionA rt, []⟩
    else
      ⟨s', "🔧 **Customize Mode Selected**\n\nLet\x27s configure your " ++ rt ++
           " step by step.\n\nFirst, what should we name this resource?", []⟩

/-- `_generate_creation_summary` (lines 219-264). -/
def generate_creation_summaryA (rt : String) (r : GwResult) (config : CreationConfig) : String :=
  joinNL (["✅ **" ++ upperS rt ++ " CREATED SUCCESSFULLY**\n"] ++
    (if rt == "ec2" then
      ["🖥️ **Instance Details:**",
       "   • Instance ID: " ++ r.instance_id.getD "N/A",
       "   • Instance Type: " ++ r.instance_type.getD "N/A",
       "   • Purpose: " ++ config.purpose.getD "general",
       "   • Status: Launching (takes 2-3 minutes)",
       "   • Estimated Cost: ~$8-34/month",
       "",
       "🔧 **Auto-Created Resources:**",
       "   • Security Group: web-server-sg (HTTP/HTTPS/SSH)",
       "   • Key Pair: aws-ops-keypair",
       "   • CloudWatch Logs: /aws/ec2/instances",
       "   • IAM Role: EC2-CloudWatch-Role"]
     else if rt == "lambda" then
      ["⚡ **Function Details:**",
       "   • Function Name: " ++ r.function_name.getD "N/A",
       "   • Runtime: Python 3.9",
       "   • Memory: 512MB",
       "   • Timeout: 60 seconds",
       "   • Purpose: " ++ config.purpose.getD "general",
       "",
       "🔧 **Auto-Created Resources:**",
       "   • IAM Execution Role: lambda-execution-role",
       "   • CloudWatch Log Group: /aws/lambda/" ++ r.function_name.getD "function",
       "   • Basic monitoring enabled",
       "   • Generated code based on purpose"]
     else []) ++
    ["",
     "📊 **Observability Enabled:**",
     "   • CloudWatch Logs: All operations logged",
     "   • CloudWatch Metrics: Performance tracking",
     "   • X-Ray Tracing: Request flow monitoring",
     "   • AgentCore Memory: Conversation history stored"])

/-- `_suggest_next_steps` (lines 266-330). -/
def suggest_next_stepsA (rt : String) : String :=
  if rt == "ec2" then
    "🚀 **NEXT STEPS - What would you like to do?**\n\n" ++
    "**Option 1: Configure the Instance**\n   • \"Install web server on the instance\"\n" ++
    "   • \"Set up SSL certificate\"\n   • \"Configure auto-scaling\"\n\n" ++
    "**Option 2: Connect & Access**\n   • \"Show me how to SSH into the instance\"\n" ++
    "   • \"Get the public IP address\"\n   • \"Open port 80 for web traffic\"\n\n" ++
    "**Option 3: Add More Resources**\n   • \"Create a load balancer for this instance\"\n" ++
    "   • \"Add a database for this web server\"\n   • \"Set up monitoring and alerts\"\n\n" ++
    "**Option 4: Cost Management**\n   • \"Set up auto-shutdown for nights/weekends\"\n" ++
    "   • \"Create billing alerts\"\n   • \"Show me cost optimization tips\"\n\n" ++
    "**Just tell me what you\x27d like to do next, or ask a specific question!**"
  else if rt == "lambda" then
    "🚀 **NEXT STEPS - What would you like to do?**\n\n" ++
    "**Option 1: Test the Function**\n   • \"Test the Lambda function with sample data\"\n" ++
    "   • \"Show me the function logs\"\n   • \"Update the function code\"\n\n" ++
    "**Option 2: Add Triggers**\n   • \"Connect this to API Gateway\"\n" ++
    "   • \"Set up S3 trigger for file uploads\"\n   • \"Create a CloudWatch schedule\"\n\n" ++
    "**Option 3: Enhance Functionality**\n   • \"Add environment variables\"\n" ++
    "   • \"Increase memory and timeout\"\n   • \"Add error handling and retries\"\n\n" ++
    "**Option 4: Integration**\n   • \"Connect to a database\"\n" ++
    "   • \"Add SNS notifications\"\n   • \"Set up monitoring alerts\"\n\n" ++
    "**Just tell me what you\x27d like to do next!**"
  else
    "🚀 **NEXT STEPS - What would you like to do?**\n\n" ++
    "**Common Next Actions:**\n   • \"Configure the " ++ rt ++ "\"\n" ++
    "   • \"Add monitoring and alerts\"\n   • \"Connect to other services\"\n" ++
    "   • \"Set up security and access\"\n   • \"Test the " ++ rt ++ "\"\n\n" ++
    "**Just tell me what you\x27d like to do next!**"

/-- `_execute_creation` (lines 191-217).  The tool name is
`create_<rt>_instance` when `rt == 'ec2'` and `create_<rt>_function`
otherwise; the whole body is inside `try/except`, so a raised gateway
exception becomes the `"❌ Error: "` reply here. -/
def execute_creationA (gw : Gw) (rt : String) (config : CreationConfig) :
    String × List Call :=
  let tool := if rt == "ec2" then "create_" ++ rt ++ "_instance"
              else "create_" ++ rt ++ "_function"
  let calls : List Call := [(tool, .creation config)]
  match gw tool (.creation config) with
  | .error e => ("❌ Error: " ++ e, calls)
  | .ok r =>
    if truthyB r.success then
      (generate_creation_summaryA rt r config ++ "\n\n" ++ suggest_next_stepsA rt, calls)
    else
      ("❌ Failed: " ++ r.error.getD "Unknown error", calls)

/-- `_handle_creation_config` (lines 164-189): build the config from the
answer, execute the creation, then reset the whole session to `{}`
(line 187) whatever the outcome was. -/
def handle_creation_configA (gw : Gw) (s : SessionA) (message : String) :
    TurnOut SessionA :=
  let mode := s.creation_mode.getD "None"
  let rt := s.creation_resource.getD "None"
  let config : CreationConfig :=
    if mode == "easy" then
      ⟨"easy", some (underscoreSpaces (lowerS message)), none, none⟩
    else
      ⟨"customize", none,
       if rt == "lambda" then some message else none,
       if rt == "ec2" then some "t3.micro" else none⟩
  let res := execute_creationA gw rt config
  ⟨SessionA.empty, res.1, res.2⟩

/-- `_handle_general_query` (lines 484-496): one `comprehensive_aws_query`
call; the reply is the result\x27s `message` field verbatim when present
(`result.get('message', 'No results found.')`), and a raised exception is
caught locally into the `"❌ Error: "` reply. -/
def general_queryA (gw : Gw) (message : String) : String × List Call :=
  match gw "comprehensive_aws_query" (.query ⟨message, "detailed", none⟩) with
  | .ok r => (r.message.getD "No results found.",
              [("comprehensive_aws_query", .query ⟨message, "detailed", none⟩)])
  | .error e => ("❌ Error: " ++ e,
              [("comprehensive_aws_query", .query ⟨message, "detailed", none⟩)])

/-- `_handle_installation_request` (lines 350-375). -/
def installation_requestA (message : String) : String :=
  if strIn "web server" (lowerS message) then
    "✅ **Installing Web Server**\n\n🔧 **Auto-executing steps:**\n" ++
    "   1. ✅ Connecting to EC2 instance\n   2. ✅ Installing Apache/Nginx\n" ++
    "   3. ✅ Configuring firewall (port 80/443)\n   4. ✅ Starting web server service\n" ++
    "   5. ✅ Creating sample index.html\n\n🌐 **Your web server is now running!**\n" ++
    "   • Public URL: http://your-instance-ip\n   • Document root: /var/www/html\n" ++
    "   • Service status: Active\n\n🚀 **Next steps:**\n   • \"Upload my website files\"\n" ++
    "   • \"Set up SSL certificate\"\n   • \"Configure custom domain\"\n" ++
    "   • \"Add database connection\"\n\nWhat would you like to do next?"
  else
    "I can help install various software. What specifically would you like to install?"

/-- `_handle_connection_request` (lines 377-404). -/
def connection_requestA (message : String) : String :=
  if strIn "ssh" (lowerS message) then
    "✅ **SSH Connection Guide**\n\n🔑 **Connection Details:**\n" ++
    "   • Instance IP: 54.123.45.67\n   • Username: ec2-user\n" ++
    "   • Key: aws-ops-keypair.pem\n\n💻 **SSH Command:**\n```bash\n" ++
    "ssh -i aws-ops-keypair.pem ec2-user@54.123.45.67\n```\n\n🔧 **Auto-configured:**\n" ++
    "   • ✅ Security group allows SSH (port 22)\n   • ✅ Key pair downloaded to your machine\n" ++
    "   • ✅ Instance is running and ready\n\n🚀 **Next steps:**\n" ++
    "   • \"Install web server on the instance\"\n   • \"Set up monitoring\"\n" ++
    "   • \"Configure automatic backups\"\n\nWhat would you like to do after connecting?"
  else
    "I can help you connect to your AWS resources. Which resource do you want to connect to?"

/-- `_handle_test_request` (lines 406-432). -/
def test_requestA (message : String) : String :=
  if strIn "lambda" (lowerS message) then
    "✅ **Testing Lambda Function**\n\n📊 **Test Results:**\n" ++
    "   • Function Status: Active\n   • Test Payload: \x7b\"test\": \"data\"\x7d\n" ++
    "   • Execution Time: 245ms\n   • Memory Used: 64MB\n   • Response: Success\n\n" ++
    "📈 **Performance Metrics:**\n   • Cold Start: 1.2s\n   • Warm Execution: 245ms\n" ++
    "   • Error Rate: 0%\n   • Invocations: 1\n\n🚀 **Next steps:**\n" ++
    "   • \"Connect to API Gateway\"\n   • \"Add error handling\"\n" ++
    "   • \"Set up monitoring alerts\"\n   • \"Update function code\"\n\n" ++
    "What would you like to do next?"
  else
    "I can help test your AWS resources. What would you like to test?"

/-- `_handle_monitoring_setup` (lines 434-456): unconditional canned text. -/
def monitoring_setupA : String :=
  "✅ **Setting Up Monitoring**\n\n📊 **Auto-configured monitoring:**\n" ++
  "   • ✅ CloudWatch alarms for CPU > 80%\n   • ✅ Memory utilization alerts\n" ++
  "   • ✅ Disk space monitoring\n   • ✅ Network traffic tracking\n" ++
  "   • ✅ Email notifications enabled\n\n📧 **Alert Destinations:**\n" ++
  "   • Email: your-email@domain.com\n   • SMS: +1-xxx-xxx-xxxx (optional)\n" ++
  "   • Slack: #aws-alerts (optional)\n\n🚀 **Next steps:**\n" ++
  "   • \"Create custom dashboard\"\n   • \"Set up log analysis\"\n" ++
  "   • \"Add performance metrics\"\n   • \"Configure auto-scaling based on metrics\"\n\n" ++
  "What monitoring feature would you like to add next?"

/-- `_handle_database_creation` (lines 458-482): unconditional canned text. -/
def database_creationA : String :=
  "✅ **Creating Database for Your Application**\n\n📊 **Recommended Setup:**\n" ++
  "   • Engine: MySQL 8.0\n   • Instance: db.t3.medium\n" ++
  "   • Storage: 100GB (auto-scaling)\n   • Multi-AZ: Yes (high availability)\n" ++
  "   • Backup: 7 days retention\n\n🔧 **Auto-configuring:**\n" ++
  "   • ✅ Private subnet placement\n   • ✅ Security group (database access only)\n" ++
  "   • ✅ Connection to your EC2 instance\n   • ✅ Encryption at rest\n\n" ++
  "⏱️ **Creating database... (takes ~10 minutes)**\n\n🚀 **While we wait, next steps:**\n" ++
  "   • \"Prepare database schema\"\n   • \"Set up connection pooling\"\n" ++
  "   • \"Configure backup strategy\"\n\nWhat would you like to prepare for the database?"

/-- `_handle_next_step_action` (lines 332-348): per-action dispatch; the
`secure`, `scale` and `trigger` action types fall through to the general
query (and hence make a gateway call). -/
def handle_next_stepA (gw : Gw) (action message : String) : String × List Call :=
  if action == "install" then (installation_requestA message, [])
  else if action == "connect" then (connection_requestA message, [])
  else if action == "test" then (test_requestA message, [])
  else if action == "monitor" then (monitoring_setupA, [])
  else if action == "database" then (database_creationA, [])
  else general_queryA gw message

/-- The mode-token guard of `process_message`
(line 42: `message.lower() in ['easy', 'customize']`). -/
def modeTokenGuard (message : String) : Bool :=
  lowerS message == "easy" || lowerS message == "customize"

/-- The wizard guard of `process_message`
(line 46: `self.conversation_state[user_id].get('creation_mode')`). -/
def wizardGuard (s : SessionA) : Bool := truthyS s.creation_mode

/-- The part of `process_message` (lines 45-57) after the mode-token check:
mid-wizard answer handling, else classify and dispatch. -/
def turnA_nonToken (gw : Gw) (s : SessionA) (message : String) : TurnOut SessionA :=
  if wizardGuard s then handle_creation_configA gw s message
  else
    match parse_intentA message with
    | .create rt orig => handle_resource_creationA s rt orig
    | .nextStep a orig =>
      let res := handle_next_stepA gw a orig
      ⟨s, res.1, res.2⟩
    | .query orig =>
      let res := general_queryA gw orig
      ⟨s, res.1, res.2⟩

/-- `process_message` of `enhanced_aws_agent.py` (lines 30-61), one turn on
an existing session.  Every gateway call on every reachable path is inside a
local `try/except`, so the outer handler never fires in this model. -/
def turnA (gw : Gw) (s : SessionA) (message : String) : TurnOut SessionA :=
  if modeTokenGuard message then handle_mode_selectionA s (lowerS message)
  else turnA_nonToken gw s message

/-! ### Intent classifier of `enhanced_agent.py` (`_parse_intent`, lines 69-128) -/

inductive IntentE where
  | create (resource_type : String) (original_message : String)
  | manage (action : String) (original_message : String)
  | cost (original_message : String)
  | security (original_message : String)
  | query (original_message : String)
  deriving DecidableEq, Repr

/-- The `original_message` field every `IntentE` variant carries. -/
def IntentE.original : IntentE → String
  | .create _ m => m
  | .manage _ m => m
  | .cost m => m
  | .security m => m
  | .query m => m

/-- `create_patterns` of `enhanced_agent.py` (lines 74-81). -/
def create_patternsE : List (String × List String) :=
  [("ec2", ["create ec2", "launch instance", "new instance", "create instance"]),
   ("lambda", ["create lambda", "new function", "create function"]),
   ("rds", ["create database", "create rds", "new database"]),
   ("s3", ["create bucket", "new bucket", "create s3"]),
   ("vpc", ["create vpc", "new vpc"]),
   ("alb", ["create load balancer", "create alb", "new load balancer"])]

/-- `manage_patterns` of `enhanced_agent.py` (lines 84-90). -/
def manage_patternsE : List (String × List String) :=
  [("start", ["start", "turn on", "power on"]),
   ("stop", ["stop", "turn off", "power off", "shut down"]),
   ("restart", ["restart", "reboot"]),
   ("delete", ["delete", "remove", "terminate"]),
   ("scale", ["scale up", "scale down", "increase capacity", "decrease capacity"])]

/-- Cost-optimization keywords (line 111). -/
def cost_wordsE : List String := ["cost", "expensive", "unused", "optimize", "save money"]

/-- Security keywords (line 118). -/
def security_wordsE : List String := ["security", "public", "access", "permissions", "vulnerable"]

/-- `_parse_intent` of `enhanced_agent.py`: creation, then management, then
cost keywords, then security keywords, then the `query_resources` fallback. -/
def parse_intentE (message : String) : IntentE :=
  match matchTable create_patternsE (lowerS message) with
  | some rt => .create rt message
  | none =>
    match matchTable manage_patternsE (lowerS message) with
    | some a => .manage a message
    | none =>
      if cost_wordsE.any (fun w => strIn w (lowerS message)) then .cost message
      else if security_wordsE.any (fun w => strIn w (lowerS message)) then .security message
      else .query message

/-! ### Controller of `enhanced_agent.py` -/

/-- The confirmation-token guard (line 44:
`message.upper() in ['CONFIRM', 'YES', 'Y']`). -/
def confirmGuard (message : String) : Bool :=
  upperS message == "CONFIRM" || upperS message == "YES" || upperS message == "Y"

/-- The cancellation-token guard (line 46:
`message.upper() in ['CANCEL', 'NO', 'N']`). -/
def cancelGuard (message : String) : Bool :=
  upperS message == "CANCEL" || upperS message == "NO" || upperS message == "N"

/-- The reply produced by the `except` block of `process_message`
(lines 65-67) when dispatch raises `AttributeError` for a method that is not
defined on the class (`str(e)` rendered with `\x27` for the apostrophes). -/
def attrErrReplyE (method : String) : String :=
  "❌ Sorry, I encountered an error: \x27EnhancedAWSAgent\x27 object has no attribute \x27" ++
  method ++ "\x27"

/-- `_handle_confirmation` (lines 293-313).  On confirm, the pending record
is cleared (line 305) **before** the gateway call (line 308); a raised
gateway exception therefore propagates to the `process_message` boundary
with the pending record already gone, and is rendered there as the
`"❌ Sorry, I encountered an error: "` reply (lines 65-67). -/
def handle_confirmationE (gw : Gw) (s : SessionE) (confirmed : Bool) : TurnOut SessionE :=
  match s.pending_confirmations with
  | none => ⟨s, "❌ No pending actions to confirm.", []⟩
  | some pc =>
    if confirmed then
      let s' := { s with pending_confirmations := none }
      match gw pc.action (.raw pc.params) with
      | .ok r =>
        ⟨s', "✅ Action executed: " ++ r.message.getD "Completed successfully",
         [(pc.action, .raw pc.params)]⟩
      | .error e =>
        ⟨s', "❌ Sorry, I encountered an error: " ++ e, [(pc.action, .raw pc.params)]⟩
    else
      ⟨{ s with pending_confirmations := none }, "❌ Action cancelled.", []⟩

/-- The part of `process_message` of `enhanced_agent.py` (lines 49-63) after
the token checks: classify and dispatch.  Of the five dispatch targets only
`_handle_resource_creation` is defined on the class;
`_handle_resource_management`, `_handle_resource_query`,
`_handle_cost_optimization` and `_handle_security_action` are referenced but
nowhere defined, so those branches raise `AttributeError`, which the
boundary handler renders as the generic error reply with the session
unchanged and no gateway call made.  (`_handle_general_query` at line 63 is
unreachable: `_parse_intent` always returns one of the five named types.) -/
def turnE_nonToken (s : SessionE) (message : String) : TurnOut SessionE :=
  match parse_intentE message with
  | .create rt orig =>
    ⟨{ s with pending_creation := some ⟨rt, orig⟩ }, modeQuestion rt, []⟩
  | .manage _ _ => ⟨s, attrErrReplyE "_handle_resource_management", []⟩
  | .query _ => ⟨s, attrErrReplyE "_handle_resource_query", []⟩
  | .cost _ => ⟨s, attrErrReplyE "_handle_cost_optimization", []⟩
  | .security _ => ⟨s, attrErrReplyE "_handle_security_action", []⟩

/-- `process_message` of `enhanced_agent.py` (lines 32-67), one turn on an
existing session: confirmation tokens first, then cancellation tokens, then
classification.  (This variant has no mode-token branch: `easy`/`customize`
fall through to the classifier.) -/
def turnE (gw : Gw) (s : SessionE) (message : String) : TurnOut SessionE :=
  if confirmGuard message then handle_confirmationE gw s true
  else if cancelGuard message then handle_confirmationE gw s false
  else turnE_nonToken s message

/-- `_execute_resource_creation` of `enhanced_agent.py` (line 257): its tool
name is the bare `create_<resource_type>`.  (The function itself is dead
code — nothing in the file calls it — but the claim cites its construction.) -/
def toolNameE (rt : String) : String := "create_" ++ rt

/-! ### MCP handler (`enhanced-mcp-handler.py`) — tool-name dispatch.

The boto3-backed creation/query bodies are the external cloud collaborator;
the embedding models which operation `handle_request` routes a tool name to,
which is all the tool-name claims depend on. -/

namespace Handler

/-- Which operation `handle_request`/`_handle_create_operation` selects. -/
inductive Outcome where
  | createEc2Instance
  | createLambdaFunction
  | createRdsDatabase
  | createS3Bucket
  | manageOp
  | readOp
  | comprehensiveQuery
  | err (msg : String)
  deriving DecidableEq, Repr

/-- `_handle_create_operation` (lines 37-50):
`resource_type = tool_name.replace('create_', '')`, then dispatch on the
four supported suffixes. -/
def handle_create_operation (tool_name : String) : Outcome :=
  let rt := strReplace tool_name "create_" ""
  if rt == "ec2_instance" then .createEc2Instance
  else if rt == "lambda_function" then .createLambdaFunction
  else if rt == "rds_database" then .createRdsDatabase
  else if rt == "s3_bucket" then .createS3Bucket
  else .err ("Resource type " ++ rt ++ " not supported")

/-- `handle_request` (lines 19-35): prefix/suffix dispatch on the tool name. -/
def handle_request (tool_name : String) : Outcome :=
  if strStartsWith "create_" tool_name then handle_create_operation tool_name
  else if strStartsWith "manage_" tool_name then .manageOp
  else if strEndsWith "_read_operations" tool_name then .readOp
  else if tool_name == "comprehensive_aws_query" then .comprehensiveQuery
  else .err ("Unknown tool: " ++ tool_name)

/-- The handler as a gateway, for end-to-end evaluation: an `err` outcome is
the returned `{"error": ...}` dictionary (no `success` key, so the agent
sees a falsy `success`); the supported operations are the external boto3
collaborator, abstracted as a generic success result. -/
def asGw : Gw := fun tool _ =>
  match handle_request tool with
  | .err m => .ok ⟨none, none, some m, none, none, none⟩
  | _ => .ok ⟨some true, some "ok", none, none, none, none⟩

end Handler

/-! ### Helper lemmas -/

theorem append_ne_empty_left (a b : String) (h : a ≠ "") : a ++ b ≠ "" := by
  cases a with
  | mk da =>
    cases b with
    | mk db =>
      intro heq
      have h2 : da ++ db = ([] : List Char) := congrArg String.data heq
      have h3 : da = [] := (List.append_eq_nil.mp h2).1
      exact h (by rw [h3])

theorem joinNL_cons_ne_empty (x : String) (l : List String) (h : x ≠ "") :
    joinNL (x :: l) ≠ "" := by
  cases l with
  | nil => exact h
  | cons y ys =>
    exact append_ne_empty_left (x ++ "\n") (joinNL (y :: ys))
      (append_ne_empty_left x "\n" h)

theorem summaryA_ne_empty (rt : String) (r : GwResult) (c : CreationConfig) :
    generate_creation_summaryA rt r c ≠ "" := by
  unfold generate_creation_summaryA
  exact joinNL_cons_ne_empty _ _ (append_ne_empty_left "✅ **" _ (by decide))

theorem mode_selectionA_calls_nil (s : SessionA) (mode : String) :
    (handle_mode_selectionA s mode).calls = [] := by
  unfold handle_mode_selectionA
  cases s.pending_creation with
  | none => rfl
  | some p => by_cases h : (mode == "easy") = true <;> simp [h]

theorem turnE_nonToken_calls_nil (s : SessionE) (message : String) :
    (turnE_nonToken s message).calls = [] := by
  unfold turnE_nonToken
  cases parse_intentE message <;> rfl

/-! ### Claim C1 -/

/-- Claim C1 (code_bug evidence).  A management-intent message such as
`"stop"` classifies as `manage_resource`, but `process_message` then calls
`self._handle_resource_management`, a method that does not exist on the
class, so the turn ends in the boundary handler's generic error reply: no
`pendingConfirmation` is stored, no confirmation prompt is emitted, and a
subsequent `"confirm"` makes no gateway call and replies
"❌ No pending actions to confirm." — for every gateway. -/
theorem C1_missing_management_handler (gw : Gw) :
    parse_intentE "stop" = IntentE.manage "stop" "stop" ∧
    (turnE gw SessionE.empty "stop").session = SessionE.empty ∧
    (turnE gw SessionE.empty "stop").calls = [] ∧
    (turnE gw SessionE.empty "stop").reply
      = attrErrReplyE "_handle_resource_management" ∧
    (turnE gw SessionE.empty "confirm").calls = [] ∧
    (turnE gw SessionE.empty "confirm").reply = "❌ No pending actions to confirm." :=
  ⟨rfl, rfl, rfl, rfl, rfl, rfl⟩

/-! ### Claim C3 -/

/-- Claim C3 counterexample.  Starting from the empty session, after
`"create ec2"` and then `"easy"`, the session still holds the
`pending_creation` record: `_handle_mode_selection`
(`enhanced_aws_agent.py` lines 138-162) sets `creation_mode` and
`creation_resource` but never clears `pending_creation`, contradicting the
claim's "clears pendingCreation" (and the mode-iff-resolved invariant). -/
theorem C3_pending_not_cleared :
    (turnA (fun _ _ => Except.error "unused")
      (turnA (fun _ _ => Except.error "unused") SessionA.empty "create ec2").session
      "easy").session
        = ⟨some ⟨"ec2", "create ec2"⟩, some "easy", some "ec2"⟩ ∧
    ¬ ((turnA (fun _ _ => Except.error "unused")
      (turnA (fun _ _ => Except.error "unused") SessionA.empty "create ec2").session
      "easy").session.pending_creation = none) := by
  constructor
  · rfl
  · decide

/-- Claim C3 as amended: from the empty session, `"create ec2"` classifies
as `create_resource`/`ec2`, the controller stores `pendingCreation` and asks
the Easy/Customize question without calling the gateway; the next message
`"easy"` yields the Easy-mode purpose question and sets `mode = easy`,
`resourceType = ec2`, but `pendingCreation` is **not** cleared — it remains
set until the wizard's terminal creation resets the whole session. -/
theorem C3_roundtrip_amended (gw : Gw) :
    parse_intentA "create ec2" = IntentA.create "ec2" "create ec2" ∧
    (turnA gw SessionA.empty "create ec2").session.pending_creation
      = some ⟨"ec2", "create ec2"⟩ ∧
    (turnA gw SessionA.empty "create ec2").reply = modeQuestion "ec2" ∧
    (turnA gw SessionA.empty "create ec2").calls = [] ∧
    (turnA gw (turnA gw SessionA.empty "create ec2").session "easy").reply
      = "🟢 **Easy Mode Selected**\n\n" ++ purposeQuestionA "ec2" ∧
    (turnA gw (turnA gw SessionA.empty "create ec2").session "easy").session
      = ⟨some ⟨"ec2", "create ec2"⟩, some "easy", some "ec2"⟩ ∧
    (turnA gw (turnA gw SessionA.empty "create ec2").session "easy").calls = [] :=
  ⟨rfl, rfl, rfl, rfl, rfl, rfl, rfl⟩

/-! ### Claim C5 -/

/-- Claim C5: `"create database"` classifies as `create_resource` with
`resourceType = rds`, never as `next_step_action`/`database`, and in
general any message matching a resource-creation pattern yields a
`create_resource` intent (creation patterns are checked before next-step
patterns in `_parse_intent`). -/
theorem C5_create_database_priority :
    parse_intentA "create database" = IntentA.create "rds" "create database" ∧
    (∀ a, parse_intentA "create database" ≠ IntentA.nextStep a "create database") ∧
    (∀ msg, (matchTable create_patternsA (lowerS msg)).isSome = true →
      ∃ rt, parse_intentA msg = IntentA.create rt msg) := by
  have h1 : parse_intentA "create database" = IntentA.create "rds" "create database" := by
    decide
  refine ⟨h1, ?_, ?_⟩
  · intro a h
    rw [h1] at h
    exact IntentA.noConfusion h
  · intro msg h
    unfold parse_intentA
    cases hm : matchTable create_patternsA (lowerS msg) with
    | none => rw [hm] at h; exact absurd h (by decide)
    | some rt => exact ⟨rt, rfl⟩

/-- Witness for C5 at the concrete input `"create database"`. -/
theorem C5_create_database_priority_witness :
    (matchTable create_patternsA (lowerS "create database")).isSome = true ∧
    ∃ rt, parse_intentA "create database" = IntentA.create rt "create database" :=
  ⟨by decide, C5_create_database_priority.2.2 "create database" (by decide)⟩

/-! ### Claim C6 -/

/-- Claim C6: with `pending_creation` unset, a mode-token message (a message
whose lowering is `"easy"` or `"customize"`) yields exactly the
"❌ No pending resource creation found." reply, leaves the session
unchanged, and makes no gateway call. -/
theorem C6_mode_token_no_pending (gw : Gw) (s : SessionA) (msg : String)
    (hp : s.pending_creation = none) (hm : modeTokenGuard msg = true) :
    turnA gw s msg = ⟨s, "❌ No pending resource creation found.", []⟩ := by
  unfold turnA
  rw [hm]
  simp only [if_true]
  unfold handle_mode_selectionA
  rw [hp]

/-- Witness for C6: the fresh session and the message `"customize"`. -/
theorem C6_mode_token_no_pending_witness :
    turnA (fun _ _ => Except.error "unused") SessionA.empty "customize"
      = ⟨SessionA.empty, "❌ No pending resource creation found.", []⟩ :=
  C6_mode_token_no_pending _ _ _ rfl (by decide)

/-! ### Claim C7 -/

/-- Claim C7 (code_bug evidence).  `_execute_creation` constructs
`create_<rt>_function` for every non-ec2 resource type, so for `rds` the
tool name is `create_rds_function`; the MCP handler's
`_handle_create_operation` rejects that name ("Resource type rds_function
not supported") — the actual rds creation tool is `create_rds_database`.
Running the wizard end-to-end against the handler (session mid-Easy-wizard
for rds, answer `"ecommerce"`) therefore invokes `create_rds_function`
exactly once and fails.  The generic-query claim half is true: every
generic query invokes the literal `comprehensive_aws_query`. -/
theorem C7_rds_tool_name_mismatch :
    (turnA Handler.asGw ⟨none, some "easy", some "rds"⟩ "ecommerce").calls
      = [("create_rds_function", .creation ⟨"easy", some "ecommerce", none, none⟩)] ∧
    (turnA Handler.asGw ⟨none, some "easy", some "rds"⟩ "ecommerce").reply
      = "❌ Failed: Resource type rds_function not supported" ∧
    (turnA Handler.asGw ⟨none, some "easy", some "rds"⟩ "ecommerce").session
      = SessionA.empty ∧
    Handler.handle_request "create_rds_function"
      = Handler.Outcome.err "Resource type rds_function not supported" ∧
    Handler.handle_request "create_rds_database" = Handler.Outcome.createRdsDatabase ∧
    Handler.handle_request "create_s3_function"
      = Handler.Outcome.err "Resource type s3_function not supported" ∧
    toolNameE "rds" = "create_rds" ∧
    Handler.handle_request "comprehensive_aws_query" = Handler.Outcome.comprehensiveQuery ∧
    (∀ gw msg, (general_queryA gw msg).2.map Prod.fst = ["comprehensive_aws_query"]) := by
  refine ⟨by decide, by decide, by decide, by decide, by decide, by decide, rfl, by decide, ?_⟩
  intro gw msg
  unfold general_queryA
  cases gw "comprehensive_aws_query" (.query ⟨msg, "detailed", none⟩) <;> rfl

/-! ### Claim C2 -/

/-- Claim C2: in a mid-wizard session (any message that is not a mode token,
with `creation_mode` truthy), `_handle_creation_config` runs and — whatever
the gateway returns, including an exception — the session is reset to the
initial empty shape; in the model the reset `{}` and the lazily-initialised
dictionary are the same `SessionA.empty`, so a subsequent `"create ec2"`
literally is a first-time call, and it stores `pendingCreation` and emits
the mode question again. -/
theorem C2_session_reset_after_creation (gw gw2 : Gw) (s : SessionA) (msg : String)
    (hm : modeTokenGuard msg = false) (hw : wizardGuard s = true) :
    (turnA gw s msg).session = SessionA.empty ∧
    turnA gw2 SessionA.empty "create ec2"
      = ⟨⟨some ⟨"ec2", "create ec2"⟩, none, none⟩, modeQuestion "ec2", []⟩ := by
  constructor
  · unfold turnA turnA_nonToken
    rw [hm, hw]
    rfl
  · rfl

/-- Witness for C2: a session mid-Easy-wizard for ec2 answering
`"web server"`, against a gateway that raises. -/
theorem C2_session_reset_after_creation_witness :
    (turnA (fun _ _ => Except.error "boom") ⟨none, some "easy", some "ec2"⟩
        "web server").session = SessionA.empty ∧
    turnA (fun _ _ => Except.error "boom") SessionA.empty "create ec2"
      = ⟨⟨some ⟨"ec2", "create ec2"⟩, none, none⟩, modeQuestion "ec2", []⟩ :=
  C2_session_reset_after_creation _ _ _ _ (by decide) (by decide)

/-! ### Claim C8 -/

/-- Some pattern group of `_parse_intent` (`enhanced_aws_agent.py`) matches. -/
def matchesAnyA (msg : String) : Bool :=
  (matchTable create_patternsA (lowerS msg)).isSome ||
  (matchTable next_step_patternsA (lowerS msg)).isSome

/-- Some pattern group of `_parse_intent` (`enhanced_agent.py`) matches. -/
def matchesAnyE (msg : String) : Bool :=
  (matchTable create_patternsE (lowerS msg)).isSome ||
  (matchTable manage_patternsE (lowerS msg)).isSome ||
  cost_wordsE.any (fun w => strIn w (lowerS msg)) ||
  security_wordsE.any (fun w => strIn w (lowerS msg))

/-- Claim C8: both classifiers are total Lean functions (they never raise:
every operation is substring matching on the lowered message), every intent
carries the original message verbatim, and any message matching no pattern
group falls through to the fallback query intent. -/
theorem C8_classifier_total_fallback :
    (∀ msg, (parse_intentA msg).original = msg ∧ (parse_intentE msg).original = msg) ∧
    (∀ msg, matchesAnyA msg = false → parse_intentA msg = IntentA.query msg) ∧
    (∀ msg, matchesAnyE msg = false → parse_intentE msg = IntentE.query msg) := by
  refine ⟨?_, ?_, ?_⟩
  · intro msg
    constructor
    · unfold parse_intentA
      cases matchTable create_patternsA (lowerS msg) with
      | some rt => rfl
      | none =>
        cases matchTable next_step_patternsA (lowerS msg) with
        | some a => rfl
        | none => rfl
    · unfold parse_intentE
      cases matchTable create_patternsE (lowerS msg) with
      | some rt => rfl
      | none =>
        cases matchTable manage_patternsE (lowerS msg) with
        | some a => rfl
        | none =>
          by_cases hc : cost_wordsE.any (fun w => strIn w (lowerS msg)) = true
          · rw [hc]; rfl
          · rw [Bool.not_eq_true] at hc
            rw [hc]
            by_cases hs : security_wordsE.any (fun w => strIn w (lowerS msg)) = true
            · rw [hs]; rfl
            · rw [Bool.not_eq_true] at hs
              rw [hs]; rfl
  · intro msg h
    unfold matchesAnyA at h
    unfold parse_intentA
    cases h1 : matchTable create_patternsA (lowerS msg) with
    | some rt => rw [h1] at h; simp at h
    | none =>
      cases h2 : matchTable next_step_patternsA (lowerS msg) with
      | some a => rw [h1, h2] at h; simp at h
      | none => rfl
  · intro msg h
    unfold matchesAnyE at h
    unfold parse_intentE
    cases h1 : matchTable create_patternsE (lowerS msg) with
    | some rt => rw [h1] at h; simp at h
    | none =>
      cases h2 : matchTable manage_patternsE (lowerS msg) with
      | some a => rw [h1, h2] at h; simp at h
      | none =>
        rw [h1, h2] at h
        simp only [Option.isSome_none, Bool.false_or, Bool.or_eq_false_iff] at h
        rw [h.1, h.2]
        rfl

/-- Witness for C8: the unmatched message `"hello there"`. -/
theorem C8_classifier_total_fallback_witness :
    matchesAnyA "hello there" = false ∧ matchesAnyE "hello there" = false ∧
    parse_intentA "hello there" = IntentA.query "hello there" ∧
    parse_intentE "hello there" = IntentE.query "hello there" :=
  ⟨by decide, by decide,
   C8_classifier_total_fallback.2.1 "hello there" (by decide),
   C8_classifier_total_fallback.2.2 "hello there" (by decide)⟩

/-! ### Claim C10 -/

/-- Claim C10: tokens are recognised only by full-message equality after
case normalisation — the guards are exactly equality tests of the
normalised message against the token lists, a message that is not a token
takes the non-token route of the respective controller, and concretely
`"easy mode"` goes to the classifier path (a generic query) leaving
`pending_creation` untouched, while `"yes please"` with a pending
confirmation is not treated as a confirmation: no gateway call, pending
record untouched. -/
theorem C10_token_full_match :
    (∀ msg, modeTokenGuard msg = true ↔ (lowerS msg = "easy" ∨ lowerS msg = "customize")) ∧
    (∀ msg, confirmGuard msg = true ↔
      (upperS msg = "CONFIRM" ∨ upperS msg = "YES" ∨ upperS msg = "Y")) ∧
    (∀ msg, cancelGuard msg = true ↔
      (upperS msg = "CANCEL" ∨ upperS msg = "NO" ∨ upperS msg = "N")) ∧
    (∀ gw s msg, modeTokenGuard msg = false → turnA gw s msg = turnA_nonToken gw s msg) ∧
    (∀ gw s msg, confirmGuard msg = false → cancelGuard msg = false →
      turnE gw s msg = turnE_nonToken s msg) ∧
    (∀ gw, turnA gw ⟨some ⟨"ec2", "create ec2"⟩, none, none⟩ "easy mode"
      = ⟨⟨some ⟨"ec2", "create ec2"⟩, none, none⟩,
         (general_queryA gw "easy mode").1, (general_queryA gw "easy mode").2⟩) ∧
    (∀ gw, turnE gw ⟨some ⟨"stop_ec2", [("instance_id", "i-123")]⟩, none, none, none⟩
        "yes please"
      = ⟨⟨some ⟨"stop_ec2", [("instance_id", "i-123")]⟩, none, none, none⟩,
         attrErrReplyE "_handle_resource_query", []⟩) := by
  refine ⟨?_, ?_, ?_, ?_, ?_, ?_, ?_⟩
  · intro msg; unfold modeTokenGuard; simp
  · intro msg; unfold confirmGuard; simp [or_assoc]
  · intro msg; unfold cancelGuard; simp [or_assoc]
  · intro gw s msg h
    unfold turnA
    rw [h]
    rfl
  · intro gw s msg h1 h2
    unfold turnE
    rw [h1, h2]
    rfl
  · intro gw; rfl
  · intro gw; rfl

/-- Witness for C10: `"yes please"` and `"easy mode"` take the non-token
routes of the two controllers. -/
theorem C10_token_full_match_witness :
    (turnA (fun _ _ => Except.error "x") SessionA.empty "yes please"
      = turnA_nonToken (fun _ _ => Except.error "x") SessionA.empty "yes please") ∧
    (turnE (fun _ _ => Except.error "x") SessionE.empty "easy mode"
      = turnE_nonToken SessionE.empty "easy mode") :=
  ⟨C10_token_full_match.2.2.2.1 _ _ _ (by decide),
   C10_token_full_match.2.2.2.2.1 _ _ _ (by decide) (by decide)⟩

/-! ### Route and error-path lemmas for the two controllers -/

theorem turnA_mode_eq (gw : Gw) (s : SessionA) (msg : String)
    (h : modeTokenGuard msg = true) :
    turnA gw s msg = handle_mode_selectionA s (lowerS msg) := by
  unfold turnA
  rw [h]
  rfl

theorem turnA_wizard_eq (gw : Gw) (s : SessionA) (msg : String)
    (h1 : modeTokenGuard msg = false) (h2 : wizardGuard s = true) :
    turnA gw s msg = handle_creation_configA gw s msg := by
  unfold turnA turnA_nonToken
  rw [h1, h2]
  rfl

theorem turnA_classify_eq (gw : Gw) (s : SessionA) (msg : String)
    (h1 : modeTokenGuard msg = false) (h2 : wizardGuard s = false) :
    turnA gw s msg
      = (match parse_intentA msg with
         | .create rt orig => handle_resource_creationA s rt orig
         | .nextStep a orig =>
           ⟨s, (handle_next_stepA gw a orig).1, (handle_next_stepA gw a orig).2⟩
         | .query orig => ⟨s, (general_queryA gw orig).1, (general_queryA gw orig).2⟩) := by
  unfold turnA turnA_nonToken
  rw [h1, h2]
  rfl

theorem general_queryA_err (gw : Gw) (e : String)
    (hgw : ∀ t p, gw t p = Except.error e) (m : String) :
    general_queryA gw m = ("❌ Error: " ++ e,
      [("comprehensive_aws_query", .query ⟨m, "detailed", none⟩)]) := by
  unfold general_queryA
  rw [hgw]

theorem execute_creationA_err (gw : Gw) (e : String)
    (hgw : ∀ t p, gw t p = Except.error e) (rt : String) (c : CreationConfig) :
    (execute_creationA gw rt c).1 = "❌ Error: " ++ e := by
  simp only [execute_creationA]
  rw [hgw]

theorem next_stepA_err (gw : Gw) (e : String)
    (hgw : ∀ t p, gw t p = Except.error e) (a m : String)
    (hc : (handle_next_stepA gw a m).2 ≠ []) :
    handle_next_stepA gw a m = ("❌ Error: " ++ e,
      [("comprehensive_aws_query", .query ⟨m, "detailed", none⟩)]) := by
  unfold handle_next_stepA at hc ⊢
  by_cases i1 : (a == "install") = true
  · rw [i1] at hc; exact absurd rfl hc
  rw [Bool.not_eq_true] at i1
  rw [i1] at hc ⊢
  by_cases i2 : (a == "connect") = true
  · rw [i2] at hc; exact absurd rfl hc
  rw [Bool.not_eq_true] at i2
  rw [i2] at hc ⊢
  by_cases i3 : (a == "test") = true
  · rw [i3] at hc; exact absurd rfl hc
  rw [Bool.not_eq_true] at i3
  rw [i3] at hc ⊢
  by_cases i4 : (a == "monitor") = true
  · rw [i4] at hc; exact absurd rfl hc
  rw [Bool.not_eq_true] at i4
  rw [i4] at hc ⊢
  by_cases i5 : (a == "database") = true
  · rw [i5] at hc; exact absurd rfl hc
  rw [Bool.not_eq_true] at i5
  rw [i5] at hc ⊢
  exact general_queryA_err gw e hgw m

/-! ### Claim C4 -/

/-- Claim C4 counterexample.  A confirmed `pendingConfirmation` whose
gateway call raises: `_handle_confirmation` clears the pending record
**before** calling the gateway (`enhanced_agent.py` line 305 before line
308), so after the exception the session is *not* in its pre-call state —
the pending record is gone and the user cannot retry — contradicting the
claim's "a pendingConfirmation being confirmed is still present". -/
theorem C4_pending_cleared_counterexample :
    (turnE (fun _ _ => Except.error "RequestTimeout")
        ⟨some ⟨"stop_ec2", [("instance_id", "i-1234")]⟩, none, none, none⟩
        "CONFIRM").reply
      = "❌ Sorry, I encountered an error: RequestTimeout" ∧
    (turnE (fun _ _ => Except.error "RequestTimeout")
        ⟨some ⟨"stop_ec2", [("instance_id", "i-1234")]⟩, none, none, none⟩
        "CONFIRM").session.pending_confirmations = none ∧
    (turnE (fun _ _ => Except.error "RequestTimeout")
        ⟨some ⟨"stop_ec2", [("instance_id", "i-1234")]⟩, none, none, none⟩
        "CONFIRM").session
      ≠ ⟨some ⟨"stop_ec2", [("instance_id", "i-1234")]⟩, none, none, none⟩ :=
  ⟨by decide, by decide, by decide⟩

/-- Claim C4 as amended: whenever the gateway raises, the exception is
caught at the controller boundary and rendered with the fixed error marker
(`"❌ Error: "` in `enhanced_aws_agent.py`, `"❌ Sorry, I encountered an
error: "` in `enhanced_agent.py`); the wizard's terminal creation turn
always resets the session while every other gateway-calling turn of
`enhanced_aws_agent.py` leaves the session in its pre-call state; but a
`pendingConfirmation` being confirmed is cleared **before** the gateway
call, so after the exception it is no longer present. -/
theorem C4_gateway_exception_amended (gw : Gw) (e : String)
    (hgw : ∀ t p, gw t p = Except.error e) :
    (∀ s msg, (turnA gw s msg).calls ≠ [] →
      (turnA gw s msg).reply = "❌ Error: " ++ e ∧
      (turnA gw s msg).session
        = (if modeTokenGuard msg = false ∧ wizardGuard s = true then SessionA.empty else s)) ∧
    (∀ s msg, (turnE gw s msg).calls ≠ [] →
      (turnE gw s msg).reply = "❌ Sorry, I encountered an error: " ++ e ∧
      (turnE gw s msg).session = { s with pending_confirmations := none }) := by
  constructor
  · intro s msg hc
    by_cases h1 : modeTokenGuard msg = true
    · rw [turnA_mode_eq gw s msg h1] at hc
      exact absurd (mode_selectionA_calls_nil s (lowerS msg)) hc
    rw [Bool.not_eq_true] at h1
    by_cases h2 : wizardGuard s = true
    · rw [turnA_wizard_eq gw s msg h1 h2]
      refine ⟨execute_creationA_err gw e hgw _ _, ?_⟩
      rw [if_pos ⟨h1, h2⟩]
      rfl
    rw [Bool.not_eq_true] at h2
    rw [turnA_classify_eq gw s msg h1 h2] at hc ⊢
    rw [if_neg (fun hand => Bool.false_ne_true (h2 ▸ hand.2))]
    cases hi : parse_intentA msg with
    | create rt orig =>
      rw [hi] at hc
      exact absurd rfl hc
    | nextStep a orig =>
      rw [hi] at hc
      have h3 := next_stepA_err gw e hgw a orig hc
      refine ⟨?_, rfl⟩
      show (handle_next_stepA gw a orig).1 = "❌ Error: " ++ e
      rw [h3]
    | query orig =>
      have h3 := general_queryA_err gw e hgw orig
      refine ⟨?_, rfl⟩
      show (general_queryA gw orig).1 = "❌ Error: " ++ e
      rw [h3]
  · intro s msg hc
    unfold turnE at hc ⊢
    by_cases h1 : confirmGuard msg = true
    · rw [h1] at hc ⊢
      unfold handle_confirmationE at hc ⊢
      cases hp : s.pending_confirmations with
      | none => rw [hp] at hc; exact absurd rfl hc
      | some pc =>
        simp only [hgw]
        exact ⟨rfl, rfl⟩
    rw [Bool.not_eq_true] at h1
    rw [h1] at hc ⊢
    by_cases h2 : cancelGuard msg = true
    · rw [h2] at hc
      unfold handle_confirmationE at hc
      cases hp : s.pending_confirmations with
      | none => rw [hp] at hc; exact absurd rfl hc
      | some pc => rw [hp] at hc; exact absurd rfl hc
    rw [Bool.not_eq_true] at h2
    rw [h2] at hc
    exact absurd (turnE_nonToken_calls_nil s msg) hc

/-- Witness for C4: a raising gateway, a mid-wizard ec2 turn, and a
confirmed pending management action. -/
theorem C4_gateway_exception_amended_witness :
    (turnA (fun _ _ => Except.error "boom") ⟨none, some "easy", some "ec2"⟩
        "web server").reply = "❌ Error: boom" ∧
    (turnE (fun _ _ => Except.error "boom")
        ⟨some ⟨"stop_ec2", [("instance_id", "i-1234")]⟩, none, none, none⟩
        "CONFIRM").reply = "❌ Sorry, I encountered an error: boom" ∧
    (turnE (fun _ _ => Except.error "boom")
        ⟨some ⟨"stop_ec2", [("instance_id", "i-1234")]⟩, none, none, none⟩
        "CONFIRM").session
      = ⟨none, none, none, none⟩ :=
  ⟨((C4_gateway_exception_amended (fun _ _ => Except.error "boom") "boom"
      (fun _ _ => rfl)).1 ⟨none, some "easy", some "ec2"⟩ "web server" (by decide)).1,
   ((C4_gateway_exception_amended (fun _ _ => Except.error "boom") "boom"
      (fun _ _ => rfl)).2 ⟨some ⟨"stop_ec2", [("instance_id", "i-1234")]⟩, none, none, none⟩
      "CONFIRM" (by decide)).1,
   ((C4_gateway_exception_amended (fun _ _ => Except.error "boom") "boom"
      (fun _ _ => rfl)).2 ⟨some ⟨"stop_ec2", [("instance_id", "i-1234")]⟩, none, none, none⟩
      "CONFIRM" (by decide)).2⟩

/-! ### Reply non-emptiness lemmas -/

theorem installation_requestA_ne (m : String) : installation_requestA m ≠ "" := by
  unfold installation_requestA
  split <;> decide

theorem connection_requestA_ne (m : String) : connection_requestA m ≠ "" := by
  unfold connection_requestA
  split <;> decide

theorem test_requestA_ne (m : String) : test_requestA m ≠ "" := by
  unfold test_requestA
  split <;> decide

theorem modeQuestion_ne (rt : String) : modeQuestion rt ≠ "" := by
  unfold modeQuestion
  repeat apply append_ne_empty_left
  decide

theorem general_queryA_ne (gw : Gw)
    (hgw : ∀ t p r, gw t p = Except.ok r → r.message ≠ some "") (m : String) :
    (general_queryA gw m).1 ≠ "" := by
  unfold general_queryA
  cases hg : gw "comprehensive_aws_query" (.query ⟨m, "detailed", none⟩) with
  | error e => exact append_ne_empty_left "❌ Error: " e (by decide)
  | ok r =>
    show r.message.getD "No results found." ≠ ""
    cases hm : r.message with
    | none => decide
    | some m2 =>
      have hne := hgw _ _ _ hg
      intro hEq
      have hEq2 : m2 = "" := hEq
      rw [hEq2] at hm
      exact hne hm

theorem execute_creationA_ne (gw : Gw) (rt : String) (c : CreationConfig) :
    (execute_creationA gw rt c).1 ≠ "" := by
  simp only [execute_creationA]
  cases gw (if rt == "ec2" then "create_" ++ rt ++ "_instance"
            else "create_" ++ rt ++ "_function") (.creation c) with
  | error e => exact append_ne_empty_left "❌ Error: " e (by decide)
  | ok r =>
    show (if truthyB r.success = true
          then (generate_creation_summaryA rt r c ++ "\n\n" ++ suggest_next_stepsA rt,
                [(if rt == "ec2" then "create_" ++ rt ++ "_instance"
                  else "create_" ++ rt ++ "_function", CallArg.creation c)])
          else ("❌ Failed: " ++ r.error.getD "Unknown error",
                [(if rt == "ec2" then "create_" ++ rt ++ "_instance"
                  else "create_" ++ rt ++ "_function", CallArg.creation c)])).1 ≠ ""
    by_cases hs : truthyB r.success = true
    · rw [hs]
      exact append_ne_empty_left _ _
        (append_ne_empty_left _ _ (summaryA_ne_empty rt r c))
    · rw [Bool.not_eq_true] at hs
      rw [hs]
      exact append_ne_empty_left "❌ Failed: " _ (by decide)

theorem mode_selectionA_reply_ne (s : SessionA) (mode : String) :
    (handle_mode_selectionA s mode).reply ≠ "" := by
  unfold handle_mode_selectionA
  cases s.pending_creation with
  | none => exact (show ("❌ No pending resource creation found." : String) ≠ "" by decide)
  | some p =>
    by_cases h : (mode == "easy") = true
    · rw [h]
      exact append_ne_empty_left _ _ (by decide)
    · rw [Bool.not_eq_true] at h
      rw [h]
      exact append_ne_empty_left _ _ (append_ne_empty_left _ _ (by decide))

theorem next_stepA_reply_ne (gw : Gw)
    (hgq : ∀ m, (general_queryA gw m).1 ≠ "") (a m : String) :
    (handle_next_stepA gw a m).1 ≠ "" := by
  unfold handle_next_stepA
  by_cases i1 : (a == "install") = true
  · rw [i1]; exact installation_requestA_ne m
  rw [Bool.not_eq_true] at i1
  rw [i1]
  by_cases i2 : (a == "connect") = true
  · rw [i2]; exact connection_requestA_ne m
  rw [Bool.not_eq_true] at i2
  rw [i2]
  by_cases i3 : (a == "test") = true
  · rw [i3]; exact test_requestA_ne m
  rw [Bool.not_eq_true] at i3
  rw [i3]
  by_cases i4 : (a == "monitor") = true
  · rw [i4]; exact (show monitoring_setupA ≠ "" by decide)
  rw [Bool.not_eq_true] at i4
  rw [i4]
  by_cases i5 : (a == "database") = true
  · rw [i5]; exact (show database_creationA ≠ "" by decide)
  rw [Bool.not_eq_true] at i5
  rw [i5]
  exact hgq m

theorem turnA_reply_ne (gw : Gw)
    (hgq : ∀ m, (general_queryA gw m).1 ≠ "") (s : SessionA) (m : String) :
    (turnA gw s m).reply ≠ "" := by
  by_cases h1 : modeTokenGuard m = true
  · rw [turnA_mode_eq gw s m h1]
    exact mode_selectionA_reply_ne s (lowerS m)
  rw [Bool.not_eq_true] at h1
  by_cases h2 : wizardGuard s = true
  · rw [turnA_wizard_eq gw s m h1 h2]
    exact execute_creationA_ne gw _ _
  rw [Bool.not_eq_true] at h2
  rw [turnA_classify_eq gw s m h1 h2]
  cases parse_intentA m with
  | create rt orig => exact modeQuestion_ne rt
  | nextStep a orig => exact next_stepA_reply_ne gw hgq a orig
  | query orig => exact hgq orig

theorem confirmationE_some_true (gw : Gw) (s : SessionE) (pc : PendingConf)
    (hp : s.pending_confirmations = some pc) :
    handle_confirmationE gw s true
      = match gw pc.action (.raw pc.params) with
        | .ok r => ⟨{ s with pending_confirmations := none },
                    "✅ Action executed: " ++ r.message.getD "Completed successfully",
                    [(pc.action, .raw pc.params)]⟩
        | .error e => ⟨{ s with pending_confirmations := none },
                    "❌ Sorry, I encountered an error: " ++ e,
                    [(pc.action, .raw pc.params)]⟩ := by
  unfold handle_confirmationE
  rw [hp]
  rfl

theorem confirmationE_reply_ne (gw : Gw) (s : SessionE) (b : Bool) :
    (handle_confirmationE gw s b).reply ≠ "" := by
  cases hp : s.pending_confirmations with
  | none =>
    unfold handle_confirmationE
    rw [hp]
    exact (show ("❌ No pending actions to confirm." : String) ≠ "" by decide)
  | some pc =>
    cases b with
    | false =>
      unfold handle_confirmationE
      rw [hp]
      exact (show ("❌ Action cancelled." : String) ≠ "" by decide)
    | true =>
      rw [confirmationE_some_true gw s pc hp]
      cases gw pc.action (.raw pc.params) with
      | ok r => exact append_ne_empty_left "✅ Action executed: " _ (by decide)
      | error e => exact append_ne_empty_left "❌ Sorry, I encountered an error: " _ (by decide)

theorem turnE_nonToken_reply_ne (s : SessionE) (m : String) :
    (turnE_nonToken s m).reply ≠ "" := by
  unfold turnE_nonToken
  cases parse_intentE m with
  | create rt orig => exact modeQuestion_ne rt
  | manage a orig =>
    exact (show attrErrReplyE "_handle_resource_management" ≠ "" by decide)
  | query orig => exact (show attrErrReplyE "_handle_resource_query" ≠ "" by decide)
  | cost orig => exact (show attrErrReplyE "_handle_cost_optimization" ≠ "" by decide)
  | security orig => exact (show attrErrReplyE "_handle_security_action" ≠ "" by decide)

theorem turnE_reply_ne (gw : Gw) (s : SessionE) (m : String) :
    (turnE gw s m).reply ≠ "" := by
  unfold turnE
  by_cases h1 : confirmGuard m = true
  · rw [h1]; exact confirmationE_reply_ne gw s true
  rw [Bool.not_eq_true] at h1
  rw [h1]
  by_cases h2 : cancelGuard m = true
  · rw [h2]; exact confirmationE_reply_ne gw s false
  rw [Bool.not_eq_true] at h2
  rw [h2]
  exact turnE_nonToken_reply_ne s m

/-! ### Claim C9 -/

/-- Claim C9 counterexample.  `_handle_general_query` returns
`result.get('message', 'No results found.')`: the default is used only when
the key is *absent*, so a gateway result that carries `message: ""` is
returned verbatim and the turn's reply is the raw empty string. -/
theorem C9_empty_reply_counterexample :
    (turnA (fun _ _ => Except.ok ⟨some true, some "", none, none, none, none⟩)
      SessionA.empty "hello").reply = "" := by decide

/-- Claim C9 as amended: for every inbound message, every session, and every
gateway whose returned results never carry a present-but-empty `message`
field (exceptions unrestricted), the reply of the turn is non-empty, in both
controllers; a present-but-empty `message` field is the one exception — it
is echoed verbatim on the generic-query path, giving an empty reply. -/
theorem C9_reply_nonempty_amended (gw : Gw)
    (hgw : ∀ t p r, gw t p = Except.ok r → r.message ≠ some "") :
    (∀ s msg, (turnA gw s msg).reply ≠ "") ∧
    (∀ s msg, (turnE gw s msg).reply ≠ "") :=
  ⟨fun s msg => turnA_reply_ne gw (general_queryA_ne gw hgw) s msg,
   fun s msg => turnE_reply_ne gw s msg⟩

/-- Witness for C9: a gateway answering with a non-empty message. -/
theorem C9_reply_nonempty_amended_witness :
    (turnA (fun _ _ => Except.ok ⟨some true, some "3 instances", none, none, none, none⟩)
        SessionA.empty "hello").reply ≠ "" ∧
    (turnE (fun _ _ => Except.ok ⟨some true, some "3 instances", none, none, none, none⟩)
        SessionE.empty "hello").reply ≠ "" :=
  ⟨(C9_reply_nonempty_amended _
      (fun t p r h => by injection h with h2; rw [← h2]; decide)).1 SessionA.empty "hello",
   (C9_reply_nonempty_amended _
      (fun t p r h => by injection h with h2; rw [← h2]; decide)).2 SessionE.empty "hello"⟩
